import Mathlib

/-!
# ec2-github-runner: `src/aws.js`

A shallow embedding of `buildUserDataScript`, `buildMarketOptions`, `startEc2Instance`
and `terminateEc2Instance`, followed by theorems about the retry loop with subnet
failover.

Effects are made explicit:
* the AWS client is an oracle giving the outcome of the k-th `client.send` call;
* every `client.send`, every `core.info/error/warning` line and every `setTimeout`
  pause is recorded, in program order, in a list of `Event`s;
* a JavaScript exception is a value `JsError`; a function that may throw returns a
  result that says whether it returned or threw.
-/

namespace Ec2GithubRunner

/-! ## Data model -/

/-- A JavaScript exception value (`name` and `message` of an `Error`). -/
structure JsError where
  name : String
  message : String
deriving DecidableEq, Repr

/-- The fields of `config.input` read by `aws.js` (all come from `core.getInput`, so they
are strings; an input that is not set is the empty string, which is falsy). -/
structure Input where
  ec2Os : String
  runnerHomeDir : String
  preRunnerScript : String
  ec2ImageId : String
  ec2InstanceType : String
  securityGroupId : String
  iamRoleName : String
  awsKeyPairName : String
  marketType : String
  ec2InstanceId : String
deriving DecidableEq, Repr

/-- The fields of `config.githubContext` read by `aws.js`. -/
structure GithubContext where
  owner : String
  repo : String
deriving DecidableEq, Repr

/-- One entry of `config.tagSpecifications`, in the shape the EC2 client expects; the
code passes the value on without looking into it. -/
structure TagSpecification where
  ResourceType : String
  Tags : List (String × String)
deriving DecidableEq, Repr

/-- The `config` module as `aws.js` uses it. `config.js` itself is not part of the
sources at hand, so the configuration is a parameter of every function below. -/
structure Config where
  input : Input
  githubContext : GithubContext
  tagSpecifications : Option (List TagSpecification)
  subnetIds : List String
deriving DecidableEq, Repr

/-- The `SpotOptions` object of `buildMarketOptions`. -/
structure SpotOptions where
  SpotInstanceType : String
deriving DecidableEq, Repr

/-- The object returned by `buildMarketOptions` for the spot market. -/
structure MarketOptions where
  MarketType : String
  SpotOptions : SpotOptions
deriving DecidableEq, Repr

/-- The `IamInstanceProfile` object of the creation request. -/
structure IamInstanceProfile where
  Name : String
deriving DecidableEq, Repr

/-- The `params` object of `startEc2Instance`. `SubnetId` is absent (`none`) until the
loop assigns it; `none` also stands for the JavaScript value `undefined`. -/
structure RunInstancesParams where
  ImageId : String
  InstanceType : String
  MinCount : Nat
  MaxCount : Nat
  UserData : String
  SecurityGroupIds : List String
  IamInstanceProfile : IamInstanceProfile
  KeyName : String
  TagSpecifications : Option (List TagSpecification)
  InstanceMarketOptions : Option MarketOptions
  SubnetId : Option String
deriving DecidableEq, Repr

/-- The `params` object of `terminateEc2Instance`. -/
structure TerminateInstancesParams where
  InstanceIds : List String
deriving DecidableEq, Repr

/-- A command handed to `client.send`. -/
inductive Command where
  | runInstances (params : RunInstancesParams)
  | terminateInstances (params : TerminateInstancesParams)
deriving DecidableEq, Repr

/-- One element of `result.Instances`; `InstanceId` may be `undefined`. -/
structure Instance where
  InstanceId : Option String
deriving DecidableEq, Repr

/-- The value a successful `RunInstancesCommand` resolves to; `Instances` may be
`undefined`. -/
structure RunInstancesOutput where
  Instances : Option (List Instance)
deriving DecidableEq, Repr

/-- The outcome of awaiting one `client.send(command)`: the promise resolves with a
value or rejects with an error. -/
inductive SendResult (α : Type) where
  | resolved (value : α)
  | rejected (error : JsError)
deriving DecidableEq, Repr

/-- An observable effect of the program. -/
inductive Event where
  | send (command : Command)
  | info (message : String)
  | error (message : String)
  | warning (message : String)
  | sleep (ms : Nat)
deriving DecidableEq, Repr

/-- How a call of `startEc2Instance` ends. -/
inductive StartResult where
  /-- The `return ec2InstanceId` inside the `try` block. -/
  | returned (ec2InstanceId : Option String)
  /-- The `throw error` inside the `catch` block. -/
  | threw (error : JsError)
  /-- The loop condition became false and the function ran off its end
  (it would resolve with `undefined`). -/
  | fellThrough
deriving DecidableEq, Repr

/-- How a call of `terminateEc2Instance` ends. -/
inductive TerminateResult where
  | completed
  | threw (error : JsError)
deriving DecidableEq, Repr

/-! ## Node library functions used by the code -/

/-- The UTF-8 bytes of one character, as `Buffer.from(string)` produces them. -/
def utf8Bytes (c : Char) : List Nat :=
  let n := c.toNat
  if n < 0x80 then [n]
  else if n < 0x800 then [0xC0 + n / 64, 0x80 + n % 64]
  else if n < 0x10000 then [0xE0 + n / 4096, 0x80 + (n / 64) % 64, 0x80 + n % 64]
  else [0xF0 + n / 262144, 0x80 + (n / 4096) % 64, 0x80 + (n / 64) % 64, 0x80 + n % 64]

/-- The base64 alphabet. -/
def base64Alphabet : List Char :=
  "ABCDEFGHIJKLMNOPQRSTUVWXYZabcdefghijklmnopqrstuvwxyz0123456789+/".toList

/-- The base64 digit of a 6-bit value. -/
def base64Digit (n : Nat) : Char := base64Alphabet.getD n '='

/-- Base64 of a byte sequence, with padding: `buffer.toString('base64')`. -/
def base64Encode : List Nat → List Char
  | [] => []
  | [a] => [base64Digit (a / 4), base64Digit ((a % 4) * 16), '=', '=']
  | [a, b] =>
    [base64Digit (a / 4), base64Digit ((a % 4) * 16 + b / 16), base64Digit ((b % 16) * 4), '=']
  | a :: b :: c :: rest =>
    base64Digit (a / 4) :: base64Digit ((a % 4) * 16 + b / 16)
      :: base64Digit ((b % 16) * 4 + c / 64) :: base64Digit (c % 64) :: base64Encode rest

/-- The expression `Buffer.from(s).toString('base64')`. -/
def toBase64 (s : String) : String :=
  String.mk (base64Encode (s.toList.flatMap utf8Bytes))

/-- The text a template literal inserts for a value that is a string or `undefined`. -/
def templateString : Option String → String
  | some s => s
  | none => "undefined"

/-! ## `aws.js` -/

/-- The constant `runnerVersion`. -/
def runnerVersion : String := "2.311.0"

/-- The function `buildUserDataScript(githubRegistrationToken, label)`: the lines of the
boot script, together with what the function logs. -/
def buildUserDataScript (config : Config) (githubRegistrationToken label : String) :
    List String × List Event :=
  let log := [Event.info ("Building data script for " ++ config.input.ec2Os)]
  if config.input.ec2Os = "windows" then
    if config.input.runnerHomeDir ≠ "" then
      ([ "<powershell>",
         "winrm quickconfig -q",
         "winrm set winrm/config/service/Auth '@\x7bBasic=\"true\"\x7d'",
         "winrm set winrm/config/service '@\x7bAllowUnencrypted=\"true\"\x7d'",
         "winrm set winrm/config/winrs '@\x7bMaxMemoryPerShellMB=\"0\"\x7d'",
         "cd \"" ++ config.input.runnerHomeDir ++ "\"",
         "echo \"" ++ config.input.preRunnerScript ++ "\" > pre-runner-script.ps1",
         "& pre-runner-script.ps1",
         "./config.cmd --url https://github.com/" ++ config.githubContext.owner ++ "/"
           ++ config.githubContext.repo ++ " --token " ++ githubRegistrationToken
           ++ " --labels " ++ label ++ " --name " ++ label ++ " --unattended",
         "./run.cmd",
         "</powershell>",
         "<persist>false</persist>" ], log)
    else
      ([ "<powershell>",
         "winrm quickconfig -q",
         "winrm set winrm/config/service/Auth '@\x7bBasic=\"true\"\x7d'",
         "winrm set winrm/config/service '@\x7bAllowUnencrypted=\"true\"\x7d'",
         "winrm set winrm/config/winrs '@\x7bMaxMemoryPerShellMB=\"0\"\x7d'",
         "mkdir actions-runner; cd actions-runner",
         "echo \"" ++ config.input.preRunnerScript ++ "\" > pre-runner-script.ps1",
         "& pre-runner-script.ps1",
         "Invoke-WebRequest -Uri https://github.com/actions/runner/releases/download/v"
           ++ runnerVersion ++ "/actions-runner-win-x64-" ++ runnerVersion
           ++ ".zip -OutFile actions-runner-win-x64-" ++ runnerVersion ++ ".zip",
         "Add-Type -AssemblyName System.IO.Compression.FileSystem ; "
           ++ "[System.IO.Compression.ZipFile]::ExtractToDirectory(\"$PWD/actions-runner-win-x64-"
           ++ runnerVersion ++ ".zip\", \"$PWD\")",
         "./config.cmd --url https://github.com/" ++ config.githubContext.owner ++ "/"
           ++ config.githubContext.repo ++ " --token " ++ githubRegistrationToken
           ++ " --labels " ++ label ++ " --name " ++ label ++ " --unattended",
         "./run.cmd",
         "</powershell>",
         "<persist>false</persist>" ], log)
  else if config.input.ec2Os = "linux" then
    if config.input.runnerHomeDir ≠ "" then
      ([ "#!/bin/bash",
         "cd \"" ++ config.input.runnerHomeDir ++ "\"",
         "echo \"" ++ config.input.preRunnerScript ++ "\" > pre-runner-script.sh",
         "source pre-runner-script.sh",
         "export RUNNER_ALLOW_RUNASROOT=1",
         "./config.sh --url https://github.com/" ++ config.githubContext.owner ++ "/"
           ++ config.githubContext.repo ++ " --token " ++ githubRegistrationToken
           ++ " --labels " ++ label,
         "./run.sh" ], log)
    else
      ([ "#!/bin/bash",
         "mkdir actions-runner && cd actions-runner",
         "echo \"" ++ config.input.preRunnerScript ++ "\" > pre-runner-script.sh",
         "source pre-runner-script.sh",
         "curl -o actions-runner-linux-x64-" ++ runnerVersion
           ++ ".tar.gz -L https://github.com/actions/runner/releases/download/v"
           ++ runnerVersion ++ "/actions-runner-linux-x64-" ++ runnerVersion ++ ".tar.gz",
         "tar xzf ./actions-runner-linux-x64-" ++ runnerVersion ++ ".tar.gz",
         "export RUNNER_ALLOW_RUNASROOT=1",
         "./config.sh --url https://github.com/" ++ config.githubContext.owner ++ "/"
           ++ config.githubContext.repo ++ " --token " ++ githubRegistrationToken
           ++ " --labels " ++ label,
         "./run.sh" ], log)
  else
    ([], log ++ [Event.error "Not supported ec2-os."])

/-- The function `buildMarketOptions()`; `none` is `undefined`. -/
def buildMarketOptions (config : Config) : Option MarketOptions :=
  if config.input.marketType = "spot" then
    some { MarketType := config.input.marketType,
           SpotOptions := { SpotInstanceType := "one-time" } }
  else
    none

/-- The object literal bound to `params` in `startEc2Instance`, before the loop assigns
`SubnetId`. -/
def startParams (config : Config) (userData : List String) : RunInstancesParams :=
  { ImageId := config.input.ec2ImageId,
    InstanceType := config.input.ec2InstanceType,
    MinCount := 1,
    MaxCount := 1,
    UserData := toBase64 (String.intercalate "\n" userData),
    SecurityGroupIds := [config.input.securityGroupId],
    IamInstanceProfile := { Name := config.input.iamRoleName },
    KeyName := config.input.awsKeyPairName,
    TagSpecifications := config.tagSpecifications,
    InstanceMarketOptions := buildMarketOptions config,
    SubnetId := none }

/-- The expression `result.Instances[0].InstanceId`: a `TypeError` when `Instances` is
`undefined` or has no first element, otherwise the (possibly `undefined`) identifier. -/
def readInstanceId (result : RunInstancesOutput) : Except JsError (Option String) :=
  match result.Instances with
  | none =>
    .error { name := "TypeError",
             message := "Cannot read properties of undefined (reading '0')" }
  | some [] =>
    .error { name := "TypeError",
             message := "Cannot read properties of undefined (reading 'InstanceId')" }
  | some (first :: _) => .ok first.InstanceId

/-- The error, if any, with which the `try` block of one loop iteration is left, given
the outcome of its `client.send`: the rejection of the call, or the `TypeError` of
reading the identifier. -/
def attemptError : SendResult RunInstancesOutput → Option JsError
  | .rejected error => some error
  | .resolved result =>
    match readInstanceId result with
    | .error error => some error
    | .ok _ => none

/-- The `while (retryCount < maxRetries)` loop of `startEc2Instance`, with the locals
`retryCount` and `subnetIndex` as arguments. `sent` counts the `client.send` calls made so
far and selects the oracle's next answer. `fuel` bounds the number of iterations; `none`
means the fuel ran out.

With an empty `subnetIds` JavaScript computes `NaN` for `subnetIndex` where this model
computes a number; `config.subnetIds[subnetIndex]` is `undefined` in both. -/
def retryLoop (config : Config) (params : RunInstancesParams)
    (outcomes : Nat → SendResult RunInstancesOutput) (maxRetries : Nat) :
    Nat → Nat → Nat → Nat → Option (StartResult × List Event)
  | 0, _, _, _ => none
  | fuel + 1, retryCount, subnetIndex, sent =>
    if retryCount < maxRetries then
      let params := { params with SubnetId := config.subnetIds[subnetIndex]? }
      let call := Event.send (.runInstances params)
      let caught (error : JsError) : Option (StartResult × List Event) :=
        let retryCount := retryCount + 1
        if retryCount = maxRetries then
          some (.threw error, [call, .error "AWS EC2 instance starting error"])
        else
          let subnetIndex := (subnetIndex + 1) % config.subnetIds.length
          (retryLoop config params outcomes maxRetries fuel retryCount subnetIndex
              (sent + 1)).map
            fun (result, events) =>
              (result,
                [call, .error "AWS EC2 instance starting error",
                  .warning ("Retrying... (Attempt " ++ toString retryCount ++ ")"),
                  .sleep 30000] ++ events)
      match outcomes sent with
      | .rejected error => caught error
      | .resolved result =>
        match readInstanceId result with
        | .error error => caught error
        | .ok ec2InstanceId =>
          some (.returned ec2InstanceId,
            [call,
              .info ("AWS EC2 instance " ++ templateString ec2InstanceId ++ " is started"),
              .info "All params: [object Object]"])
    else
      some (.fellThrough, [])

/-- The function `startEc2Instance(label, githubRegistrationToken)` with the local
constant `maxRetries` as an argument. -/
def startEc2InstanceWith (maxRetries : Nat) (config : Config)
    (label githubRegistrationToken : String)
    (outcomes : Nat → SendResult RunInstancesOutput) : Option (StartResult × List Event) :=
  let (userData, log) := buildUserDataScript config githubRegistrationToken label
  (retryLoop config (startParams config userData) outcomes maxRetries (maxRetries + 1) 0 0
      0).map
    fun (result, events) => (result, log ++ events)

/-- The local constant `maxRetries` of `startEc2Instance`. -/
def maxRetries : Nat := 10

/-- The function `startEc2Instance(label, githubRegistrationToken)`. -/
def startEc2Instance (config : Config) (label githubRegistrationToken : String)
    (outcomes : Nat → SendResult RunInstancesOutput) : Option (StartResult × List Event) :=
  startEc2InstanceWith maxRetries config label githubRegistrationToken outcomes

/-- The function `terminateEc2Instance()`; `outcomes` is the oracle for the
`TerminateInstancesCommand` calls. -/
def terminateEc2Instance (config : Config) (outcomes : Nat → SendResult Unit) :
    TerminateResult × List Event :=
  let params : TerminateInstancesParams := { InstanceIds := [config.input.ec2InstanceId] }
  let call := Event.send (.terminateInstances params)
  match outcomes 0 with
  | .resolved _ =>
    (.completed,
      [call, .info ("AWS EC2 instance " ++ config.input.ec2InstanceId ++ " is terminated")])
  | .rejected error =>
    (.threw error,
      [call,
        .error ("AWS EC2 instance " ++ config.input.ec2InstanceId ++ " termination error")])

/-! ## Observations on a run -/

/-- The creation requests submitted during a run, in order. -/
def providerCalls : List Event → List RunInstancesParams
  | [] => []
  | .send (.runInstances params) :: rest => params :: providerCalls rest
  | _ :: rest => providerCalls rest

/-- The number of `client.send` calls of any kind during a run. -/
def sendCount (events : List Event) : Nat :=
  (events.filter fun e => match e with
    | .send _ => true
    | _ => false).length

/-- The pauses taken during a run, in milliseconds, in order. -/
def pauses : List Event → List Nat
  | [] => []
  | .sleep ms :: rest => ms :: pauses rest
  | _ :: rest => pauses rest

/-- A creation request or a pause. -/
inductive Step where
  | call
  | pause (ms : Nat)
deriving DecidableEq, Repr

/-- The order in which creation requests and pauses happen during a run. -/
def steps : List Event → List Step
  | [] => []
  | .send (.runInstances _) :: rest => .call :: steps rest
  | .sleep ms :: rest => .pause ms :: steps rest
  | _ :: rest => steps rest

/-! ## The shape of a run

The events of one loop iteration, by the way the iteration ends. The k-th iteration
(counted from 0) submits `params` with the subnet at index `k % subnetIds.length`. -/

/-- The request submitted by the k-th iteration of the loop. -/
def attemptParams (config : Config) (params : RunInstancesParams) (k : Nat) :
    RunInstancesParams :=
  { params with SubnetId := config.subnetIds[k % config.subnetIds.length]? }

/-- The events of the k-th iteration when its attempt fails and the loop goes on. -/
def failedAttempt (config : Config) (params : RunInstancesParams) (k : Nat) : List Event :=
  [.send (.runInstances (attemptParams config params k)),
    .error "AWS EC2 instance starting error",
    .warning ("Retrying... (Attempt " ++ toString (k + 1) ++ ")"),
    .sleep 30000]

/-- The events of the k-th iteration when its attempt fails and the error is thrown. -/
def finalFailedAttempt (config : Config) (params : RunInstancesParams) (k : Nat) :
    List Event :=
  [.send (.runInstances (attemptParams config params k)),
    .error "AWS EC2 instance starting error"]

/-- The events of the k-th iteration when its attempt succeeds. -/
def successfulAttempt (config : Config) (params : RunInstancesParams) (k : Nat)
    (ec2InstanceId : Option String) : List Event :=
  [.send (.runInstances (attemptParams config params k)),
    .info ("AWS EC2 instance " ++ templateString ec2InstanceId ++ " is started"),
    .info "All params: [object Object]"]

/-- The request of `startEc2Instance` before a subnet is chosen. -/
def requestParams (config : Config) (label githubRegistrationToken : String) :
    RunInstancesParams :=
  startParams config (buildUserDataScript config githubRegistrationToken label).1

/-- What `startEc2Instance` logs before the loop starts. -/
def bootLog (config : Config) (label githubRegistrationToken : String) : List Event :=
  (buildUserDataScript config githubRegistrationToken label).2

/-- The `TypeError` of reading `InstanceId` from a response without instances. -/
def noInstanceError : JsError :=
  { name := "TypeError",
    message := "Cannot read properties of undefined (reading 'InstanceId')" }

/-! ## Sample configurations and provider behaviours -/

/-- A sample `config.input`: a Linux runner installed at boot, on the spot market. -/
def sampleInput : Input :=
  { ec2Os := "linux", runnerHomeDir := "", preRunnerScript := "", ec2ImageId := "ami-1",
    ec2InstanceType := "t3.micro", securityGroupId := "sg-1", iamRoleName := "runner",
    awsKeyPairName := "key", marketType := "spot", ec2InstanceId := "i-0" }

/-- A sample configuration with the given subnets. -/
def sampleConfig (subnetIds : List String) : Config :=
  { input := sampleInput,
    githubContext := { owner := "octo", repo := "app" },
    tagSpecifications := none,
    subnetIds := subnetIds }

/-- A sample error raised by the provider. -/
def capacityError : JsError :=
  { name := "InsufficientInstanceCapacity", message := "no capacity in this subnet" }

/-- A provider that rejects every creation request. -/
def alwaysRejected : Nat → SendResult RunInstancesOutput :=
  fun _ => .rejected capacityError

/-- A provider that rejects every creation request but the k-th (counted from 0), which
creates the instance `i-4`. -/
def succeedsAt (k : Nat) : Nat → SendResult RunInstancesOutput :=
  fun j =>
    if j = k then .resolved { Instances := some [{ InstanceId := some "i-4" }] }
    else .rejected capacityError

/-- A provider whose j-th rejection carries the error message `attempt j`. -/
def numberedRejections : Nat → SendResult RunInstancesOutput :=
  fun j => .rejected { name := "Error", message := "attempt " ++ toString j }

/-- A provider that answers the first request with an empty `Instances` list and every
later request with the instance `i-4`. -/
def emptyThenCreated : Nat → SendResult RunInstancesOutput :=
  fun j =>
    if j = 0 then .resolved { Instances := some [] }
    else .resolved { Instances := some [{ InstanceId := some "i-4" }] }

/-- A provider that answers every creation request with one instance that carries no
`InstanceId`. -/
def createdWithoutIdentifier : Nat → SendResult RunInstancesOutput :=
  fun _ => .resolved { Instances := some [{ InstanceId := none }] }

/-- A sample configuration whose `ec2-os` is neither `windows` nor `linux`. -/
def unsupportedOsConfig : Config :=
  { sampleConfig ["subnet-a"] with input := { sampleInput with ec2Os := "macos" } }

/-! ## One iteration of the loop -/

theorem attemptError_eq_none_iff (outcome : SendResult RunInstancesOutput) :
    attemptError outcome = none ↔
      ∃ result ec2InstanceId, outcome = .resolved result ∧
        readInstanceId result = .ok ec2InstanceId := by
  cases outcome with
  | rejected error => simp [attemptError]
  | resolved result =>
    cases h : readInstanceId result with
    | error e => simp [attemptError, h]
    | ok v => simp [attemptError, h]

theorem retryLoop_exit (config : Config) (params : RunInstancesParams)
    (outcomes : Nat → SendResult RunInstancesOutput) (maxRetries fuel retryCount
      subnetIndex sent : Nat) (h : ¬ retryCount < maxRetries) :
    retryLoop config params outcomes maxRetries (fuel + 1) retryCount subnetIndex sent
      = some (.fellThrough, []) := by
  simp [retryLoop, h]

theorem retryLoop_success (config : Config) (params : RunInstancesParams)
    (outcomes : Nat → SendResult RunInstancesOutput) (maxRetries fuel retryCount
      subnetIndex sent : Nat) (h : retryCount < maxRetries)
    (result : RunInstancesOutput) (ec2InstanceId : Option String)
    (hsend : outcomes sent = .resolved result)
    (hread : readInstanceId result = .ok ec2InstanceId) :
    retryLoop config params outcomes maxRetries (fuel + 1) retryCount subnetIndex sent
      = some (.returned ec2InstanceId,
          [.send (.runInstances { params with SubnetId := config.subnetIds[subnetIndex]? }),
            .info ("AWS EC2 instance " ++ templateString ec2InstanceId ++ " is started"),
            .info "All params: [object Object]"]) := by
  simp [retryLoop, h, hsend, hread]

theorem retryLoop_final_failure (config : Config) (params : RunInstancesParams)
    (outcomes : Nat → SendResult RunInstancesOutput) (maxRetries fuel retryCount
      subnetIndex sent : Nat) (h : retryCount + 1 = maxRetries) (error : JsError)
    (herr : attemptError (outcomes sent) = some error) :
    retryLoop config params outcomes maxRetries (fuel + 1) retryCount subnetIndex sent
      = some (.threw error,
          [.send (.runInstances { params with SubnetId := config.subnetIds[subnetIndex]? }),
            .error "AWS EC2 instance starting error"]) := by
  have hlt : retryCount < maxRetries := by omega
  cases hs : outcomes sent with
  | rejected e =>
    rw [hs] at herr
    simp [attemptError] at herr
    simp [retryLoop, hlt, h, hs, herr]
  | resolved result =>
    rw [hs] at herr
    cases hr : readInstanceId result with
    | error e =>
      simp [attemptError, hr] at herr
      simp [retryLoop, hlt, h, hs, hr, herr]
    | ok v => simp [attemptError, hr] at herr

theorem retryLoop_failure (config : Config) (params : RunInstancesParams)
    (outcomes : Nat → SendResult RunInstancesOutput) (maxRetries fuel retryCount
      subnetIndex sent : Nat) (h : retryCount + 1 < maxRetries) (error : JsError)
    (herr : attemptError (outcomes sent) = some error) :
    retryLoop config params outcomes maxRetries (fuel + 1) retryCount subnetIndex sent
      = (retryLoop config { params with SubnetId := config.subnetIds[subnetIndex]? } outcomes
            maxRetries fuel (retryCount + 1) ((subnetIndex + 1) % config.subnetIds.length)
            (sent + 1)).map
          fun run =>
            (run.1,
              [.send (.runInstances
                  { params with SubnetId := config.subnetIds[subnetIndex]? }),
                .error "AWS EC2 instance starting error",
                .warning ("Retrying... (Attempt " ++ toString (retryCount + 1) ++ ")"),
                .sleep 30000] ++ run.2) := by
  have hlt : retryCount < maxRetries := by omega
  have hne : ¬ retryCount + 1 = maxRetries := by omega
  cases hs : outcomes sent with
  | rejected e =>
    rw [hs] at herr
    simp [attemptError] at herr
    simp [retryLoop, hlt, hne, hs]
  | resolved result =>
    rw [hs] at herr
    cases hr : readInstanceId result with
    | error e =>
      simp [attemptError, hr] at herr
      simp [retryLoop, hlt, hne, hs, hr]
    | ok v => simp [attemptError, hr] at herr

/-! ## Whole runs of the loop -/

theorem attemptParams_update (config : Config) (params : RunInstancesParams)
    (subnet : Option String) (k : Nat) :
    attemptParams config { params with SubnetId := subnet } k
      = attemptParams config params k := rfl

theorem failedAttempt_update (config : Config) (params : RunInstancesParams)
    (subnet : Option String) :
    failedAttempt config { params with SubnetId := subnet } = failedAttempt config params := by
  funext k
  simp [failedAttempt, attemptParams_update]

theorem finalFailedAttempt_update (config : Config) (params : RunInstancesParams)
    (subnet : Option String) (k : Nat) :
    finalFailedAttempt config { params with SubnetId := subnet } k
      = finalFailedAttempt config params k := by
  simp [finalFailedAttempt, attemptParams_update]

theorem successfulAttempt_update (config : Config) (params : RunInstancesParams)
    (subnet : Option String) (k : Nat) (ec2InstanceId : Option String) :
    successfulAttempt config { params with SubnetId := subnet } k ec2InstanceId
      = successfulAttempt config params k ec2InstanceId := by
  simp [successfulAttempt, attemptParams_update]

/-- A run of the loop in which the attempts before the k-th fail and the k-th succeeds. -/
theorem retryLoop_run_success (config : Config)
    (outcomes : Nat → SendResult RunInstancesOutput) (maxRetries k : Nat)
    (hk : k < maxRetries) (result : RunInstancesOutput) (ec2InstanceId : Option String)
    (hsend : outcomes k = .resolved result)
    (hread : readInstanceId result = .ok ec2InstanceId) :
    ∀ (fuel retryCount : Nat) (params : RunInstancesParams), retryCount ≤ k →
      k - retryCount < fuel →
      (∀ j, retryCount ≤ j → j < k → attemptError (outcomes j) ≠ none) →
      retryLoop config params outcomes maxRetries fuel retryCount
          (retryCount % config.subnetIds.length) retryCount
        = some (.returned ec2InstanceId,
            (List.range' retryCount (k - retryCount)).flatMap (failedAttempt config params)
              ++ successfulAttempt config params k ec2InstanceId) := by
  intro fuel
  induction fuel with
  | zero => intro c params _ hfuel; omega
  | succ fuel ih =>
    intro c params hck hfuel hfail
    rcases Nat.eq_or_lt_of_le hck with heq | hlt
    · subst heq
      rw [retryLoop_success config params outcomes maxRetries fuel c _ c hk result
        ec2InstanceId hsend hread]
      simp [successfulAttempt, attemptParams]
    · obtain ⟨error, herr⟩ := Option.ne_none_iff_exists'.mp (hfail c (Nat.le_refl c) hlt)
      rw [retryLoop_failure config params outcomes maxRetries fuel c _ c (by omega) error
        herr]
      have hidx : (c % config.subnetIds.length + 1) % config.subnetIds.length
          = (c + 1) % config.subnetIds.length := Nat.mod_add_mod _ _ _
      rw [hidx, ih (c + 1) _ (by omega) (by omega)
        (fun j hj hjk => hfail j (by omega) hjk)]
      have hlen : k - c = (k - (c + 1)) + 1 := by omega
      rw [hlen, List.range'_succ]
      simp [failedAttempt_update, successfulAttempt_update, failedAttempt, attemptParams]

/-- A run of the loop in which every attempt fails. -/
theorem retryLoop_run_exhausted (config : Config)
    (outcomes : Nat → SendResult RunInstancesOutput) (maxRetries : Nat) (error : JsError)
    (hlast : attemptError (outcomes (maxRetries - 1)) = some error) :
    ∀ (fuel retryCount : Nat) (params : RunInstancesParams), retryCount < maxRetries →
      maxRetries - retryCount ≤ fuel →
      (∀ j, retryCount ≤ j → j < maxRetries → attemptError (outcomes j) ≠ none) →
      retryLoop config params outcomes maxRetries fuel retryCount
          (retryCount % config.subnetIds.length) retryCount
        = some (.threw error,
            (List.range' retryCount (maxRetries - 1 - retryCount)).flatMap
                (failedAttempt config params)
              ++ finalFailedAttempt config params (maxRetries - 1)) := by
  intro fuel
  induction fuel with
  | zero => intro c params hc hfuel; omega
  | succ fuel ih =>
    intro c params hc hfuel hfail
    by_cases hfin : c + 1 = maxRetries
    · have hcl : maxRetries - 1 = c := by omega
      rw [hcl] at hlast ⊢
      rw [retryLoop_final_failure config params outcomes maxRetries fuel c _ c hfin error
        hlast]
      simp [finalFailedAttempt, attemptParams]
    · obtain ⟨e, herr⟩ := Option.ne_none_iff_exists'.mp (hfail c (Nat.le_refl c) hc)
      rw [retryLoop_failure config params outcomes maxRetries fuel c _ c (by omega) e herr]
      have hidx : (c % config.subnetIds.length + 1) % config.subnetIds.length
          = (c + 1) % config.subnetIds.length := Nat.mod_add_mod _ _ _
      rw [hidx, ih (c + 1) _ (by omega) (by omega)
        (fun j hj hjk => hfail j (by omega) hjk)]
      have hlen : maxRetries - 1 - c = (maxRetries - 1 - (c + 1)) + 1 := by omega
      rw [hlen, List.range'_succ]
      simp [failedAttempt_update, finalFailedAttempt_update, failedAttempt, attemptParams]

/-- Either some attempt among the first `n` is the first to succeed, or all of them
fail. -/
theorem first_success_or_all_fail (outcomes : Nat → SendResult RunInstancesOutput)
    (n : Nat) :
    (∃ k, k < n ∧ attemptError (outcomes k) = none ∧
        ∀ j, j < k → attemptError (outcomes j) ≠ none)
      ∨ ∀ j, j < n → attemptError (outcomes j) ≠ none := by
  induction n with
  | zero => right; intro j hj; omega
  | succ n ih =>
    rcases ih with ⟨k, hk, hnone, hbefore⟩ | hall
    · exact Or.inl ⟨k, by omega, hnone, hbefore⟩
    · by_cases hn : attemptError (outcomes n) = none
      · exact Or.inl ⟨n, by omega, hn, hall⟩
      · right
        intro j hj
        rcases Nat.eq_or_lt_of_le (Nat.le_of_lt_succ hj) with heq | hlt
        · subst heq; exact hn
        · exact hall j hlt

theorem startEc2InstanceWith_eq (maxRetries : Nat) (config : Config)
    (label githubRegistrationToken : String)
    (outcomes : Nat → SendResult RunInstancesOutput) :
    startEc2InstanceWith maxRetries config label githubRegistrationToken outcomes
      = (retryLoop config (requestParams config label githubRegistrationToken) outcomes
          maxRetries (maxRetries + 1) 0 0 0).map
          fun run => (run.1, bootLog config label githubRegistrationToken ++ run.2) := by
  rfl

/-- The run of `startEc2Instance` in which the attempts before the k-th fail and the k-th
succeeds. -/
theorem startEc2InstanceWith_success (maxRetries : Nat) (config : Config)
    (label githubRegistrationToken : String)
    (outcomes : Nat → SendResult RunInstancesOutput) (k : Nat) (hk : k < maxRetries)
    (result : RunInstancesOutput) (ec2InstanceId : Option String)
    (hsend : outcomes k = .resolved result)
    (hread : readInstanceId result = .ok ec2InstanceId)
    (hfail : ∀ j, j < k → attemptError (outcomes j) ≠ none) :
    startEc2InstanceWith maxRetries config label githubRegistrationToken outcomes
      = some (.returned ec2InstanceId,
          bootLog config label githubRegistrationToken
            ++ ((List.range' 0 k).flatMap
                  (failedAttempt config (requestParams config label githubRegistrationToken))
                ++ successfulAttempt config
                    (requestParams config label githubRegistrationToken) k ec2InstanceId)) := by
  have h := retryLoop_run_success config outcomes maxRetries k hk result ec2InstanceId hsend
    hread (maxRetries + 1) 0 (requestParams config label githubRegistrationToken)
    (Nat.zero_le k) (by omega) (fun j _ hjk => hfail j hjk)
  rw [Nat.zero_mod, Nat.sub_zero] at h
  rw [startEc2InstanceWith_eq, h]
  rfl

/-- The run of `startEc2Instance` in which every attempt fails. -/
theorem startEc2InstanceWith_exhausted (maxRetries : Nat) (config : Config)
    (label githubRegistrationToken : String)
    (outcomes : Nat → SendResult RunInstancesOutput) (hpos : 0 < maxRetries)
    (error : JsError) (hlast : attemptError (outcomes (maxRetries - 1)) = some error)
    (hfail : ∀ j, j < maxRetries → attemptError (outcomes j) ≠ none) :
    startEc2InstanceWith maxRetries config label githubRegistrationToken outcomes
      = some (.threw error,
          bootLog config label githubRegistrationToken
            ++ ((List.range' 0 (maxRetries - 1)).flatMap
                  (failedAttempt config (requestParams config label githubRegistrationToken))
                ++ finalFailedAttempt config
                    (requestParams config label githubRegistrationToken) (maxRetries - 1))) := by
  have h := retryLoop_run_exhausted config outcomes maxRetries error hlast (maxRetries + 1) 0
    (requestParams config label githubRegistrationToken) hpos (by omega)
    (fun j _ hjk => hfail j hjk)
  rw [Nat.zero_mod, Nat.sub_zero] at h
  rw [startEc2InstanceWith_eq, h]
  rfl

/-! ## Observations on the events of a run -/

theorem providerCalls_append (xs ys : List Event) :
    providerCalls (xs ++ ys) = providerCalls xs ++ providerCalls ys := by
  induction xs with
  | nil => rfl
  | cons x xs ih =>
    cases x with
    | send command => cases command <;> simp [providerCalls, ih]
    | info _ => simpa [providerCalls] using ih
    | error _ => simpa [providerCalls] using ih
    | warning _ => simpa [providerCalls] using ih
    | sleep _ => simpa [providerCalls] using ih

theorem pauses_append (xs ys : List Event) : pauses (xs ++ ys) = pauses xs ++ pauses ys := by
  induction xs with
  | nil => rfl
  | cons x xs ih => cases x <;> simp [pauses, ih]

theorem steps_append (xs ys : List Event) : steps (xs ++ ys) = steps xs ++ steps ys := by
  induction xs with
  | nil => rfl
  | cons x xs ih =>
    cases x with
    | send command => cases command <;> simp [steps, ih]
    | info _ => simpa [steps] using ih
    | error _ => simpa [steps] using ih
    | warning _ => simpa [steps] using ih
    | sleep _ => simp [steps, ih]

theorem bootLog_quiet (config : Config) (label githubRegistrationToken : String) :
    providerCalls (bootLog config label githubRegistrationToken) = []
      ∧ pauses (bootLog config label githubRegistrationToken) = []
      ∧ steps (bootLog config label githubRegistrationToken) = [] := by
  unfold bootLog buildUserDataScript
  split_ifs <;> simp [providerCalls, pauses, steps]

theorem providerCalls_failed (config : Config) (params : RunInstancesParams)
    (ks : List Nat) :
    providerCalls (ks.flatMap (failedAttempt config params))
      = ks.map (attemptParams config params) := by
  induction ks with
  | nil => rfl
  | cons k ks ih =>
    rw [List.flatMap_cons, providerCalls_append, ih]
    simp [failedAttempt, providerCalls]

theorem pauses_failed (config : Config) (params : RunInstancesParams) (ks : List Nat) :
    pauses (ks.flatMap (failedAttempt config params)) = List.replicate ks.length 30000 := by
  induction ks with
  | nil => rfl
  | cons k ks ih =>
    rw [List.flatMap_cons, pauses_append, ih]
    simp [failedAttempt, pauses, List.replicate_succ]

theorem steps_failed (config : Config) (params : RunInstancesParams) (ks : List Nat) :
    steps (ks.flatMap (failedAttempt config params)) ++ [Step.call]
      = List.intersperse (Step.pause 30000) (List.replicate (ks.length + 1) Step.call) := by
  induction ks with
  | nil => rfl
  | cons k ks ih =>
    have hrep : List.replicate (ks.length + 1 + 1) Step.call
        = Step.call :: Step.call :: List.replicate ks.length Step.call := rfl
    have hrep1 : List.replicate (ks.length + 1) Step.call
        = Step.call :: List.replicate ks.length Step.call := rfl
    rw [List.length_cons, hrep, List.intersperse_cons₂, ← hrep1, ← ih, List.flatMap_cons,
      steps_append]
    simp [failedAttempt, steps]

/-- The requests, pauses and step order of a run that ends with a successful k-th
attempt. -/
theorem observe_success (config : Config) (label githubRegistrationToken : String)
    (k : Nat) (ec2InstanceId : Option String) :
    let params := requestParams config label githubRegistrationToken
    let events := bootLog config label githubRegistrationToken
      ++ ((List.range' 0 k).flatMap (failedAttempt config params)
          ++ successfulAttempt config params k ec2InstanceId)
    providerCalls events = (List.range (k + 1)).map (attemptParams config params)
      ∧ pauses events = List.replicate k 30000
      ∧ steps events
          = List.intersperse (Step.pause 30000) (List.replicate (k + 1) Step.call) := by
  intro params events
  obtain ⟨hcalls, hpauses, hsteps⟩ := bootLog_quiet config label githubRegistrationToken
  refine ⟨?_, ?_, ?_⟩
  · simp only [events, providerCalls_append, hcalls, providerCalls_failed, List.nil_append]
    rw [List.range_eq_range', List.range'_1_concat, List.map_append]
    simp [successfulAttempt, providerCalls]
  · simp only [events, pauses_append, hpauses, pauses_failed, List.nil_append]
    simp [successfulAttempt, pauses]
  · simp only [events, steps_append, hsteps, List.nil_append]
    have h := steps_failed config params (List.range' 0 k)
    rw [List.length_range'] at h
    rw [← h]
    simp [successfulAttempt, steps]

/-- The requests, pauses and step order of a run that ends with the failure of the
k-th attempt. -/
theorem observe_exhausted (config : Config) (label githubRegistrationToken : String)
    (k : Nat) :
    let params := requestParams config label githubRegistrationToken
    let events := bootLog config label githubRegistrationToken
      ++ ((List.range' 0 k).flatMap (failedAttempt config params)
          ++ finalFailedAttempt config params k)
    providerCalls events = (List.range (k + 1)).map (attemptParams config params)
      ∧ pauses events = List.replicate k 30000
      ∧ steps events
          = List.intersperse (Step.pause 30000) (List.replicate (k + 1) Step.call) := by
  intro params events
  obtain ⟨hcalls, hpauses, hsteps⟩ := bootLog_quiet config label githubRegistrationToken
  refine ⟨?_, ?_, ?_⟩
  · simp only [events, providerCalls_append, hcalls, providerCalls_failed, List.nil_append]
    rw [List.range_eq_range', List.range'_1_concat, List.map_append]
    simp [finalFailedAttempt, providerCalls]
  · simp only [events, pauses_append, hpauses, pauses_failed, List.nil_append]
    simp [finalFailedAttempt, pauses]
  · simp only [events, steps_append, hsteps, List.nil_append]
    have h := steps_failed config params (List.range' 0 k)
    rw [List.length_range'] at h
    rw [← h]
    simp [finalFailedAttempt, steps]

/-- Every run of `startEc2Instance` is of one of three kinds. -/
theorem startEc2InstanceWith_cases (maxRetries : Nat) (config : Config)
    (label githubRegistrationToken : String)
    (outcomes : Nat → SendResult RunInstancesOutput) :
    (∃ k result ec2InstanceId, k < maxRetries ∧ outcomes k = .resolved result ∧
        readInstanceId result = .ok ec2InstanceId ∧
        (∀ j, j < k → attemptError (outcomes j) ≠ none) ∧
        startEc2InstanceWith maxRetries config label githubRegistrationToken outcomes
          = some (.returned ec2InstanceId,
              bootLog config label githubRegistrationToken
                ++ ((List.range' 0 k).flatMap
                      (failedAttempt config
                        (requestParams config label githubRegistrationToken))
                    ++ successfulAttempt config
                        (requestParams config label githubRegistrationToken) k
                        ec2InstanceId)))
      ∨ (∃ error, 0 < maxRetries ∧ attemptError (outcomes (maxRetries - 1)) = some error ∧
          (∀ j, j < maxRetries → attemptError (outcomes j) ≠ none) ∧
          startEc2InstanceWith maxRetries config label githubRegistrationToken outcomes
            = some (.threw error,
                bootLog config label githubRegistrationToken
                  ++ ((List.range' 0 (maxRetries - 1)).flatMap
                        (failedAttempt config
                          (requestParams config label githubRegistrationToken))
                      ++ finalFailedAttempt config
                          (requestParams config label githubRegistrationToken)
                          (maxRetries - 1))))
      ∨ (maxRetries = 0 ∧
          startEc2InstanceWith maxRetries config label githubRegistrationToken outcomes
            = some (.fellThrough, bootLog config label githubRegistrationToken)) := by
  rcases first_success_or_all_fail outcomes maxRetries with ⟨k, hk, hnone, hbefore⟩ | hall
  · obtain ⟨result, ec2InstanceId, hsend, hread⟩ := (attemptError_eq_none_iff _).mp hnone
    exact Or.inl ⟨k, result, ec2InstanceId, hk, hsend, hread, hbefore,
      startEc2InstanceWith_success maxRetries config label githubRegistrationToken outcomes k
        hk result ec2InstanceId hsend hread hbefore⟩
  · rcases Nat.eq_zero_or_pos maxRetries with hzero | hpos
    · right; right
      refine ⟨hzero, ?_⟩
      subst hzero
      rw [startEc2InstanceWith_eq, retryLoop_exit _ _ _ _ _ _ _ _ (Nat.lt_irrefl 0)]
      simp
    · obtain ⟨error, herr⟩ :=
        Option.ne_none_iff_exists'.mp (hall (maxRetries - 1) (by omega))
      exact Or.inr (Or.inl ⟨error, hpos, herr, hall,
        startEc2InstanceWith_exhausted maxRetries config label githubRegistrationToken
          outcomes hpos error herr hall⟩)

/-! ## The requests of an arbitrary run -/

/-- Every run returns or throws with some number `m` of requests, which are the requests
of iterations `0 .. m-1`, separated by pauses of 30 seconds. -/
theorem startEc2InstanceWith_calls (maxRetries : Nat) (config : Config)
    (label githubRegistrationToken : String)
    (outcomes : Nat → SendResult RunInstancesOutput) :
    ∃ result events m,
      startEc2InstanceWith maxRetries config label githubRegistrationToken outcomes
        = some (result, events) ∧
      m ≤ maxRetries ∧ (0 < maxRetries → 0 < m) ∧
      providerCalls events
        = (List.range m).map
            (attemptParams config (requestParams config label githubRegistrationToken)) ∧
      pauses events = List.replicate (m - 1) 30000 ∧
      steps events = List.intersperse (Step.pause 30000) (List.replicate m Step.call) := by
  rcases startEc2InstanceWith_cases maxRetries config label githubRegistrationToken outcomes
    with ⟨k, result, ec2InstanceId, hk, _, _, _, hrun⟩ | ⟨error, hpos, _, _, hrun⟩
      | ⟨hzero, hrun⟩
  · obtain ⟨hc, hp, hs⟩ := observe_success config label githubRegistrationToken k ec2InstanceId
    exact ⟨_, _, k + 1, hrun, hk, fun _ => Nat.succ_pos k, hc, hp, hs⟩
  · obtain ⟨hc, hp, hs⟩ :=
      observe_exhausted config label githubRegistrationToken (maxRetries - 1)
    have hm : maxRetries - 1 + 1 = maxRetries := by omega
    rw [hm] at hc hs
    exact ⟨_, _, maxRetries, hrun, Nat.le_refl _, fun h => h, hc, hp, hs⟩
  · obtain ⟨hc, hp, hs⟩ := bootLog_quiet config label githubRegistrationToken
    refine ⟨_, _, 0, hrun, Nat.zero_le _, fun h => ?_, ?_, ?_, ?_⟩
    · omega
    · simpa using hc
    · simpa using hp
    · simpa using hs

/-- The loop sees the provider only through `attemptError` and, for a response whose
identifier can be read, through the response itself. -/
theorem retryLoop_congr (config : Config)
    (outcomes₁ outcomes₂ : Nat → SendResult RunInstancesOutput) (maxRetries : Nat)
    (h : ∀ j, outcomes₁ j = outcomes₂ j ∨
      ∃ error, attemptError (outcomes₁ j) = some error ∧
        attemptError (outcomes₂ j) = some error) :
    ∀ (fuel retryCount subnetIndex sent : Nat) (params : RunInstancesParams),
      retryLoop config params outcomes₁ maxRetries fuel retryCount subnetIndex sent
        = retryLoop config params outcomes₂ maxRetries fuel retryCount subnetIndex sent := by
  intro fuel
  induction fuel with
  | zero => intro c i s params; rfl
  | succ fuel ih =>
    intro c i s params
    by_cases hc : c < maxRetries
    · have key : (∃ result ec2InstanceId, outcomes₁ s = .resolved result ∧
            outcomes₂ s = .resolved result ∧ readInstanceId result = .ok ec2InstanceId)
          ∨ ∃ error, attemptError (outcomes₁ s) = some error ∧
              attemptError (outcomes₂ s) = some error := by
        rcases h s with heq | hboth
        · cases herr : attemptError (outcomes₁ s) with
          | none =>
            obtain ⟨result, ec2InstanceId, hres, hread⟩ :=
              (attemptError_eq_none_iff _).mp herr
            exact Or.inl ⟨result, ec2InstanceId, hres, heq ▸ hres, hread⟩
          | some error => exact Or.inr ⟨error, rfl, heq ▸ herr⟩
        · exact Or.inr hboth
      rcases key with ⟨result, ec2InstanceId, h1, h2, hread⟩ | ⟨error, h1, h2⟩
      · rw [retryLoop_success config params outcomes₁ maxRetries fuel c i s hc result
            ec2InstanceId h1 hread,
          retryLoop_success config params outcomes₂ maxRetries fuel c i s hc result
            ec2InstanceId h2 hread]
      · by_cases hfin : c + 1 = maxRetries
        · rw [retryLoop_final_failure config params outcomes₁ maxRetries fuel c i s hfin
              error h1,
            retryLoop_final_failure config params outcomes₂ maxRetries fuel c i s hfin
              error h2]
        · rw [retryLoop_failure config params outcomes₁ maxRetries fuel c i s (by omega)
              error h1,
            retryLoop_failure config params outcomes₂ maxRetries fuel c i s (by omega)
              error h2, ih]
    · rw [retryLoop_exit config params outcomes₁ maxRetries fuel c i s hc,
        retryLoop_exit config params outcomes₂ maxRetries fuel c i s hc]

/-! ## Reading the identifier, and the user data -/

/-- The identifier can be read only from a response with a first instance, and it is
the `InstanceId` of that instance. -/
theorem readInstanceId_ok (response : RunInstancesOutput) (ec2InstanceId : Option String)
    (h : readInstanceId response = .ok ec2InstanceId) :
    ∃ first others, response = { Instances := some (first :: others) } ∧
      ec2InstanceId = first.InstanceId := by
  cases response with
  | mk instances =>
    cases instances with
    | none => simp [readInstanceId] at h
    | some list =>
      cases list with
      | nil => simp [readInstanceId] at h
      | cons first others =>
        simp [readInstanceId] at h
        exact ⟨first, others, rfl, h.symm⟩

theorem base64Encode_eq_nil (bytes : List Nat) : base64Encode bytes = [] ↔ bytes = [] := by
  cases bytes with
  | nil => simp [base64Encode]
  | cons a rest =>
    cases rest with
    | nil => simp [base64Encode]
    | cons b rest => cases rest <;> simp [base64Encode]

theorem utf8Bytes_ne_nil (c : Char) : utf8Bytes c ≠ [] := by
  unfold utf8Bytes
  simp only []
  split_ifs <;> simp

/-- Only the empty string has an empty base64 text. -/
theorem toBase64_eq_empty (s : String) : toBase64 s = "" ↔ s = "" := by
  constructor
  · intro h
    have hdata : base64Encode (s.toList.flatMap utf8Bytes) = [] := congrArg String.data h
    rw [base64Encode_eq_nil] at hdata
    cases hs : s.toList with
    | nil => exact String.ext hs
    | cons c cs =>
      rw [hs, List.flatMap_cons] at hdata
      exact absurd (List.append_eq_nil.mp hdata).1 (utf8Bytes_ne_nil c)
  · intro h
    subst h
    rfl

theorem intercalate_go_length (separator : String) (lines : List String) :
    ∀ acc : String, acc.length ≤ (String.intercalate.go acc separator lines).length := by
  induction lines with
  | nil => intro acc; simp [String.intercalate.go]
  | cons line lines ih =>
    intro acc
    have h := ih (acc ++ separator ++ line)
    simp only [String.intercalate.go]
    simp only [String.length_append] at h
    omega

/-- Lines joined after a non-empty first line are not the empty text. -/
theorem intercalate_ne_empty (separator line : String) (lines : List String)
    (h : 0 < line.length) : String.intercalate separator (line :: lines) ≠ "" := by
  intro hempty
  have hlen := intercalate_go_length separator lines line
  have hgo : String.intercalate separator (line :: lines)
      = String.intercalate.go line separator lines := rfl
  rw [← hgo, hempty] at hlen
  simp at hlen
  omega

/-- The first line of the script for a supported operating system. -/
theorem buildUserDataScript_head (config : Config) (githubRegistrationToken label : String)
    (h : config.input.ec2Os = "windows" ∨ config.input.ec2Os = "linux") :
    (buildUserDataScript config githubRegistrationToken label).1.head?
      = some (if config.input.ec2Os = "windows" then "<powershell>" else "#!/bin/bash") := by
  unfold buildUserDataScript
  split_ifs <;> simp_all

set_option maxRecDepth 8000 in
/-- No line of the script for a supported operating system is empty. -/
theorem buildUserDataScript_lines (config : Config) (githubRegistrationToken label : String)
    (h : config.input.ec2Os = "windows" ∨ config.input.ec2Os = "linux") :
    ∀ line ∈ (buildUserDataScript config githubRegistrationToken label).1,
      0 < line.length := by
  unfold buildUserDataScript
  split_ifs <;> simp_all [String.length_append] <;> and_intros <;>
    first | decide | ((repeat left); decide)

/-! ## The claims -/

/-- C1: for every `maxRetries = N ≥ 1`, if every creation attempt fails, then
`startEc2Instance` throws after exactly `N` creation requests, and the last thing it does
before throwing is the `N`-th request and the error line for it (no retry follows).
The subnet list may be any list. -/
theorem all_fail_makes_maxRetries_calls (maxRetries : Nat) (config : Config)
    (label githubRegistrationToken : String)
    (outcomes : Nat → SendResult RunInstancesOutput) (hpos : 1 ≤ maxRetries)
    (hfail : ∀ j, j < maxRetries → attemptError (outcomes j) ≠ none) :
    ∃ error events before request,
      startEc2InstanceWith maxRetries config label githubRegistrationToken outcomes
        = some (.threw error, events) ∧
      (providerCalls events).length = maxRetries ∧
      events = before ++ [.send (.runInstances request),
        .error "AWS EC2 instance starting error"] := by
  obtain ⟨error, herr⟩ := Option.ne_none_iff_exists'.mp (hfail (maxRetries - 1) (by omega))
  obtain ⟨hc, _, _⟩ :=
    observe_exhausted config label githubRegistrationToken (maxRetries - 1)
  refine ⟨error, _,
    bootLog config label githubRegistrationToken
      ++ (List.range' 0 (maxRetries - 1)).flatMap
          (failedAttempt config (requestParams config label githubRegistrationToken)),
    attemptParams config (requestParams config label githubRegistrationToken)
      (maxRetries - 1),
    startEc2InstanceWith_exhausted maxRetries config label githubRegistrationToken outcomes
      hpos error herr hfail, ?_, ?_⟩
  · rw [hc, List.length_map, List.length_range]
    omega
  · rw [List.append_assoc]
    rfl

/-- C1, on the scenario of the specification: one subnet, one attempt allowed, the
attempt fails. -/
theorem all_fail_makes_maxRetries_calls_witness :
    ∃ error events before request,
      startEc2InstanceWith 1 (sampleConfig ["subnet-a"]) "runner-1" "token" alwaysRejected
        = some (.threw error, events) ∧
      (providerCalls events).length = 1 ∧
      events = before ++ [.send (.runInstances request),
        .error "AWS EC2 instance starting error"] :=
  all_fail_makes_maxRetries_calls 1 (sampleConfig ["subnet-a"]) "runner-1" "token"
    alwaysRejected (by decide) (by intro j _; simp [alwaysRejected, attemptError])

/-- C2: for a non-empty subnet list, the k-th creation request of a run of
`startEc2Instance` (k counted from 0) carries the subnet at index `k mod N` of the list,
an index within bounds, whatever the provider answers and whatever `maxRetries` is. -/
theorem kth_call_uses_subnet_k_mod_length (maxRetries : Nat) (config : Config)
    (label githubRegistrationToken : String)
    (outcomes : Nat → SendResult RunInstancesOutput) (hne : config.subnetIds ≠ []) :
    ∃ result events,
      startEc2InstanceWith maxRetries config label githubRegistrationToken outcomes
        = some (result, events) ∧
      (providerCalls events).map (fun request => request.SubnetId)
        = (List.range (providerCalls events).length).map
            (fun k => config.subnetIds[k % config.subnetIds.length]?) ∧
      ∀ (k : Nat) (hk : k < (providerCalls events).length),
        ((providerCalls events).get ⟨k, hk⟩).SubnetId
          = some (config.subnetIds.get ⟨k % config.subnetIds.length,
              Nat.mod_lt k (List.length_pos.mpr hne)⟩) := by
  obtain ⟨result, events, m, hrun, _, _, hcalls, _, _⟩ :=
    startEc2InstanceWith_calls maxRetries config label githubRegistrationToken outcomes
  refine ⟨result, events, hrun, ?_, ?_⟩
  · rw [hcalls]
    simp [attemptParams, Function.comp_def]
  · intro k hk
    have hlt : k % config.subnetIds.length < config.subnetIds.length :=
      Nat.mod_lt k (List.length_pos.mpr hne)
    simp only [hcalls, List.get_eq_getElem, List.getElem_map, List.getElem_range,
      attemptParams]
    exact List.getElem?_eq_getElem hlt

/-- C2, on the scenario of the specification: three subnets, four failures and a
success, so five attempts. -/
theorem kth_call_uses_subnet_k_mod_length_witness :
    ∃ result events,
      startEc2InstanceWith 5 (sampleConfig ["subnet-a", "subnet-b", "subnet-c"]) "runner-1"
          "token" (succeedsAt 4)
        = some (result, events) ∧
      (providerCalls events).map (fun request => request.SubnetId)
        = (List.range (providerCalls events).length).map
            (fun k => (sampleConfig ["subnet-a", "subnet-b", "subnet-c"]).subnetIds[
              k % (sampleConfig ["subnet-a", "subnet-b", "subnet-c"]).subnetIds.length]?) ∧
      ∀ (k : Nat) (hk : k < (providerCalls events).length),
        ((providerCalls events).get ⟨k, hk⟩).SubnetId
          = some ((sampleConfig ["subnet-a", "subnet-b", "subnet-c"]).subnetIds.get
              ⟨k % (sampleConfig ["subnet-a", "subnet-b", "subnet-c"]).subnetIds.length,
                Nat.mod_lt k (List.length_pos.mpr (by decide))⟩) :=
  kth_call_uses_subnet_k_mod_length 5 (sampleConfig ["subnet-a", "subnet-b", "subnet-c"])
    "runner-1" "token" (succeedsAt 4) (by decide)

/-- C3: if attempts `1 .. k-1` fail and attempt `k` succeeds (`1 ≤ k ≤ maxRetries`), then
`startEc2Instance` returns the identifier of the first instance of the k-th response,
after exactly `k` creation requests, whose subnets rotate through the list; after the
k-th request it only writes its two log lines (no pause, no further request). -/
theorem kth_attempt_succeeds_returns_its_identifier (maxRetries : Nat) (config : Config)
    (label githubRegistrationToken : String)
    (outcomes : Nat → SendResult RunInstancesOutput) (k : Nat) (hk : 1 ≤ k)
    (hkmax : k ≤ maxRetries) (hfail : ∀ j, j + 1 < k → attemptError (outcomes j) ≠ none)
    (first : Instance) (others : List Instance)
    (hsend : outcomes (k - 1) = .resolved { Instances := some (first :: others) }) :
    ∃ events before request,
      startEc2InstanceWith maxRetries config label githubRegistrationToken outcomes
        = some (.returned first.InstanceId, events) ∧
      (providerCalls events).length = k ∧
      (providerCalls events).map (fun request => request.SubnetId)
        = (List.range k).map (fun j => config.subnetIds[j % config.subnetIds.length]?) ∧
      events = before ++ [.send (.runInstances request),
        .info ("AWS EC2 instance " ++ templateString first.InstanceId ++ " is started"),
        .info "All params: [object Object]"] := by
  obtain ⟨hc, _, _⟩ :=
    observe_success config label githubRegistrationToken (k - 1) first.InstanceId
  have hk1 : k - 1 + 1 = k := by omega
  rw [hk1] at hc
  refine ⟨_,
    bootLog config label githubRegistrationToken
      ++ (List.range' 0 (k - 1)).flatMap
          (failedAttempt config (requestParams config label githubRegistrationToken)),
    attemptParams config (requestParams config label githubRegistrationToken) (k - 1),
    startEc2InstanceWith_success maxRetries config label githubRegistrationToken outcomes
      (k - 1) (by omega) _ first.InstanceId hsend rfl (fun j hj => hfail j (by omega)),
    ?_, ?_, ?_⟩
  · rw [hc, List.length_map, List.length_range]
  · rw [hc]
    simp [attemptParams, Function.comp_def]
  · rw [List.append_assoc]
    rfl

/-- C3, on the scenario of the specification: subnets a and b, attempts 1 to 3 fail,
attempt 4 succeeds. -/
theorem kth_attempt_succeeds_returns_its_identifier_witness :
    ∃ events before request,
      startEc2InstanceWith 4 (sampleConfig ["subnet-a", "subnet-b"]) "runner-1" "token"
          (succeedsAt 3)
        = some (.returned (some "i-4"), events) ∧
      (providerCalls events).length = 4 ∧
      (providerCalls events).map (fun request => request.SubnetId)
        = (List.range 4).map
            (fun j => (sampleConfig ["subnet-a", "subnet-b"]).subnetIds[
              j % (sampleConfig ["subnet-a", "subnet-b"]).subnetIds.length]?) ∧
      events = before ++ [.send (.runInstances request),
        .info ("AWS EC2 instance " ++ templateString (some "i-4") ++ " is started"),
        .info "All params: [object Object]"] :=
  kth_attempt_succeeds_returns_its_identifier 4 (sampleConfig ["subnet-a", "subnet-b"])
    "runner-1" "token" (succeedsAt 3) 4 (by decide) (by decide)
    (by
      intro j hj
      have hne : j ≠ 3 := by omega
      simp [succeedsAt, hne, attemptError])
    { InstanceId := some "i-4" } [] (by simp [succeedsAt])

/-- C4: when all `maxRetries` attempts fail, the error thrown by `startEc2Instance` is
exactly the error of the last attempt, whatever the errors of the earlier attempts. -/
theorem exhausted_throws_last_error (maxRetries : Nat) (config : Config)
    (label githubRegistrationToken : String)
    (outcomes : Nat → SendResult RunInstancesOutput) (hpos : 1 ≤ maxRetries)
    (hfail : ∀ j, j < maxRetries → attemptError (outcomes j) ≠ none) (error : JsError)
    (hlast : attemptError (outcomes (maxRetries - 1)) = some error) :
    ∃ events,
      startEc2InstanceWith maxRetries config label githubRegistrationToken outcomes
        = some (.threw error, events) :=
  ⟨_, startEc2InstanceWith_exhausted maxRetries config label githubRegistrationToken outcomes
    hpos error hlast hfail⟩

/-- C4, on three attempts that fail with three different errors: the third error is the
one thrown. -/
theorem exhausted_throws_last_error_witness :
    ∃ events,
      startEc2InstanceWith 3 (sampleConfig ["subnet-a", "subnet-b"]) "runner-1" "token"
          numberedRejections
        = some (.threw { name := "Error", message := "attempt 2" }, events) :=
  exhausted_throws_last_error 3 (sampleConfig ["subnet-a", "subnet-b"]) "runner-1" "token"
    numberedRejections (by decide) (by intro j _; simp [numberedRejections, attemptError])
    { name := "Error", message := "attempt 2" } (by decide)

/-- C5, as it is stated, fails: when the provider answers the first request with an
instance that carries no `InstanceId`, `startEc2Instance` returns `undefined` after that
one request; it returns no identifier and raises no failure. -/
theorem returns_undefined_when_identifier_missing :
    (startEc2Instance (sampleConfig ["subnet-a"]) "runner-1" "token"
        createdWithoutIdentifier).map
      (fun run => (run.1, (providerCalls run.2).length))
      = some (.returned none, 1) := by
  decide

/-- C5, amended: for `maxRetries ≥ 1` and every sequence of provider outcomes, a run of
`startEc2Instance` ends, after at most `maxRetries` creation requests, in one of two
ways and never by running off the end of the loop. Either all earlier attempts failed,
the response to its last request has a first instance, and it returns the `InstanceId`
of that instance (the identifier when the instance carries one, `undefined` when it
carries none); or all `maxRetries` attempts failed and it throws the error of the last
one. -/
theorem returns_first_instance_identifier_or_throws (maxRetries : Nat) (config : Config)
    (label githubRegistrationToken : String)
    (outcomes : Nat → SendResult RunInstancesOutput) (hpos : 1 ≤ maxRetries) :
    ∃ result events,
      startEc2InstanceWith maxRetries config label githubRegistrationToken outcomes
        = some (result, events) ∧
      (providerCalls events).length ≤ maxRetries ∧
      result ≠ .fellThrough ∧
      ((∃ k first others, k < maxRetries ∧
          (∀ j, j < k → attemptError (outcomes j) ≠ none) ∧
          outcomes k = .resolved { Instances := some (first :: others) } ∧
          (providerCalls events).length = k + 1 ∧
          result = .returned first.InstanceId)
        ∨ (∃ error, (∀ j, j < maxRetries → attemptError (outcomes j) ≠ none) ∧
            attemptError (outcomes (maxRetries - 1)) = some error ∧
            (providerCalls events).length = maxRetries ∧
            result = .threw error)) := by
  rcases startEc2InstanceWith_cases maxRetries config label githubRegistrationToken outcomes
    with ⟨k, response, ec2InstanceId, hk, hsend, hread, hbefore, hrun⟩
      | ⟨error, _, hlast, hall, hrun⟩ | ⟨hzero, _⟩
  · obtain ⟨hc, _, _⟩ :=
      observe_success config label githubRegistrationToken k ec2InstanceId
    have hlen := congrArg List.length hc
    rw [List.length_map, List.length_range] at hlen
    obtain ⟨first, others, hresponse, hid⟩ := readInstanceId_ok response ec2InstanceId hread
    rw [hresponse] at hsend
    exact ⟨_, _, hrun, by omega, by simp,
      Or.inl ⟨k, first, others, hk, hbefore, hsend, hlen, by rw [hid]⟩⟩
  · obtain ⟨hc, _, _⟩ :=
      observe_exhausted config label githubRegistrationToken (maxRetries - 1)
    have hlen := congrArg List.length hc
    rw [List.length_map, List.length_range] at hlen
    exact ⟨_, _, hrun, by omega, by simp,
      Or.inr ⟨error, hall, hlast, by omega, rfl⟩⟩
  · omega

/-- C5, amended, on `startEc2Instance` itself (`maxRetries = 10`), with a provider that
accepts the third request. -/
theorem returns_first_instance_identifier_or_throws_witness :
    ∃ result events,
      startEc2Instance (sampleConfig ["subnet-a", "subnet-b"]) "runner-1" "token"
          (succeedsAt 2)
        = some (result, events) ∧
      (providerCalls events).length ≤ maxRetries ∧
      result ≠ .fellThrough ∧
      ((∃ k first others, k < maxRetries ∧
          (∀ j, j < k → attemptError (succeedsAt 2 j) ≠ none) ∧
          succeedsAt 2 k = .resolved { Instances := some (first :: others) } ∧
          (providerCalls events).length = k + 1 ∧
          result = .returned first.InstanceId)
        ∨ (∃ error, (∀ j, j < maxRetries → attemptError (succeedsAt 2 j) ≠ none) ∧
            attemptError (succeedsAt 2 (maxRetries - 1)) = some error ∧
            (providerCalls events).length = maxRetries ∧
            result = .threw error)) :=
  returns_first_instance_identifier_or_throws maxRetries (sampleConfig ["subnet-a", "subnet-b"])
    "runner-1" "token" (succeedsAt 2) (by decide)

/-- C6: in every run of `startEc2Instance` the creation requests and the pauses
alternate, starting and ending with a request: there is exactly one pause, of 30000
milliseconds, between two consecutive requests, and none after the last request, be it a
success or the final failure. So the number of pauses is the number of requests minus
one. -/
theorem one_pause_between_consecutive_calls (maxRetries : Nat) (config : Config)
    (label githubRegistrationToken : String)
    (outcomes : Nat → SendResult RunInstancesOutput) :
    ∃ result events,
      startEc2InstanceWith maxRetries config label githubRegistrationToken outcomes
        = some (result, events) ∧
      steps events
        = List.intersperse (Step.pause 30000)
            (List.replicate (providerCalls events).length Step.call) ∧
      pauses events = List.replicate ((providerCalls events).length - 1) 30000 ∧
      (pauses events).length = (providerCalls events).length - 1 := by
  obtain ⟨result, events, m, hrun, _, _, hcalls, hpauses, hsteps⟩ :=
    startEc2InstanceWith_calls maxRetries config label githubRegistrationToken outcomes
  have hlen : (providerCalls events).length = m := by
    rw [hcalls, List.length_map, List.length_range]
  refine ⟨result, events, hrun, ?_, ?_, ?_⟩
  · rw [hlen, hsteps]
  · rw [hlen, hpauses]
  · rw [hlen, hpauses, List.length_replicate]

/-- C7: `terminateEc2Instance` sends exactly one command, the termination of
`config.input.ec2InstanceId`, whatever the outcome; it completes normally when the call
succeeds and throws the error of the call, unchanged, when the call fails. -/
theorem terminate_makes_one_call (config : Config) (outcomes : Nat → SendResult Unit) :
    sendCount (terminateEc2Instance config outcomes).2 = 1 ∧
    (terminateEc2Instance config outcomes).2.head?
      = some (.send (.terminateInstances { InstanceIds := [config.input.ec2InstanceId] })) ∧
    (terminateEc2Instance config outcomes).1
      = (match outcomes 0 with
          | .resolved _ => TerminateResult.completed
          | .rejected error => TerminateResult.threw error) := by
  unfold terminateEc2Instance
  cases outcomes 0 <;> simp [sendCount]

/-- C8: every creation request of a run of `startEc2Instance` is the request built
before the loop with only `SubnetId` set, to the subnet at the index of the attempt; in
particular `MinCount = 1` and `MaxCount = 1` in each of them. -/
theorem requests_differ_only_in_subnet (maxRetries : Nat) (config : Config)
    (label githubRegistrationToken : String)
    (outcomes : Nat → SendResult RunInstancesOutput) :
    ∃ result events,
      startEc2InstanceWith maxRetries config label githubRegistrationToken outcomes
        = some (result, events) ∧
      providerCalls events
        = (List.range (providerCalls events).length).map
            (fun k =>
              { startParams config
                  (buildUserDataScript config githubRegistrationToken label).1 with
                SubnetId := config.subnetIds[k % config.subnetIds.length]? }) ∧
      (providerCalls events).map (fun request => (request.MinCount, request.MaxCount))
        = List.replicate (providerCalls events).length (1, 1) := by
  obtain ⟨result, events, m, hrun, _, _, hcalls, _, _⟩ :=
    startEc2InstanceWith_calls maxRetries config label githubRegistrationToken outcomes
  have hlen : (providerCalls events).length = m := by
    rw [hcalls, List.length_map, List.length_range]
  refine ⟨result, events, hrun, ?_, ?_⟩
  · rw [hlen, hcalls]
    rfl
  · rw [hlen, hcalls, List.map_map]
    apply List.ext_getElem
    · simp
    · intro i h1 h2
      simp [attemptParams, requestParams, startParams]

/-- C9: when the k-th call (counted from 0, `k < maxRetries`, earlier attempts failed)
resolves with an empty `Instances` list, the run of `startEc2Instance` is the very run it
would be had that call been rejected with the `TypeError` of reading the identifier: the
attempt is a failed one. If it was the last attempt (`k + 1 = maxRetries`) that
`TypeError` is thrown after `maxRetries` requests; otherwise there are a pause after it
and a further request, on the next subnet. -/
theorem empty_response_is_a_failed_attempt (maxRetries : Nat) (config : Config)
    (label githubRegistrationToken : String)
    (outcomes : Nat → SendResult RunInstancesOutput) (k : Nat) (hk : k < maxRetries)
    (hfail : ∀ j, j < k → attemptError (outcomes j) ≠ none)
    (hempty : outcomes k = .resolved { Instances := some [] }) :
    startEc2InstanceWith maxRetries config label githubRegistrationToken outcomes
      = startEc2InstanceWith maxRetries config label githubRegistrationToken
          (Function.update outcomes k (.rejected noInstanceError)) ∧
    ∃ result events,
      startEc2InstanceWith maxRetries config label githubRegistrationToken outcomes
        = some (result, events) ∧
      ((k + 1 = maxRetries ∧ result = .threw noInstanceError ∧
          (providerCalls events).length = maxRetries)
        ∨ (k + 1 < maxRetries ∧ k + 2 ≤ (providerCalls events).length ∧
            k + 1 ≤ (pauses events).length ∧
            ((providerCalls events)[k + 1]?).map (fun request => request.SubnetId)
              = some (config.subnetIds[(k + 1) % config.subnetIds.length]?))) := by
  have hkerr : attemptError (outcomes k) = some noInstanceError := by
    rw [hempty]; rfl
  constructor
  · rw [startEc2InstanceWith_eq, startEc2InstanceWith_eq]
    rw [retryLoop_congr config outcomes
      (Function.update outcomes k (.rejected noInstanceError)) maxRetries]
    intro j
    by_cases hj : j = k
    · right
      subst hj
      exact ⟨noInstanceError, hkerr, by rw [Function.update_same]; rfl⟩
    · left
      rw [Function.update_noteq hj]
  · rcases startEc2InstanceWith_cases maxRetries config label githubRegistrationToken
      outcomes with ⟨k', response, ec2InstanceId, hk', hsend, hread, _, hrun⟩
        | ⟨error, _, hlast, _, hrun⟩ | ⟨hzero, _⟩
    · have hnone : attemptError (outcomes k') = none :=
        (attemptError_eq_none_iff _).mpr ⟨response, ec2InstanceId, hsend, hread⟩
      have hne : k' ≠ k := by
        intro heq
        rw [heq, hkerr] at hnone
        exact Option.noConfusion hnone
      have hnlt : ¬ k' < k := fun hlt => hfail k' hlt hnone
      have hgt : k < k' := by omega
      obtain ⟨hc, hp, _⟩ :=
        observe_success config label githubRegistrationToken k' ec2InstanceId
      refine ⟨_, _, hrun, Or.inr ⟨by omega, ?_, ?_, ?_⟩⟩
      · rw [hc, List.length_map, List.length_range]; omega
      · rw [hp, List.length_replicate]; omega
      · rw [hc]
        have hlt : k + 1 < k' + 1 := by omega
        simp [attemptParams, hlt]
    · obtain ⟨hc, hp, _⟩ :=
        observe_exhausted config label githubRegistrationToken (maxRetries - 1)
      by_cases hfin : k + 1 = maxRetries
      · have hkl : maxRetries - 1 = k := by omega
        rw [hkl, hkerr] at hlast
        have herror : error = noInstanceError := (Option.some.inj hlast).symm
        refine ⟨_, _, hrun, Or.inl ⟨hfin, by rw [herror], ?_⟩⟩
        rw [hc, List.length_map, List.length_range]; omega
      · refine ⟨_, _, hrun, Or.inr ⟨by omega, ?_, ?_, ?_⟩⟩
        · rw [hc, List.length_map, List.length_range]; omega
        · rw [hp, List.length_replicate]; omega
        · rw [hc]
          have hlt : k + 1 < maxRetries - 1 + 1 := by omega
          simp [attemptParams, hlt]
    · omega

/-- C9, on two subnets: the first response has no instance, so a second request is made,
on the second subnet. -/
theorem empty_response_is_a_failed_attempt_witness :
    startEc2InstanceWith 2 (sampleConfig ["subnet-a", "subnet-b"]) "runner-1" "token"
        emptyThenCreated
      = startEc2InstanceWith 2 (sampleConfig ["subnet-a", "subnet-b"]) "runner-1" "token"
          (Function.update emptyThenCreated 0 (.rejected noInstanceError)) ∧
    ∃ result events,
      startEc2InstanceWith 2 (sampleConfig ["subnet-a", "subnet-b"]) "runner-1" "token"
          emptyThenCreated
        = some (result, events) ∧
      ((0 + 1 = 2 ∧ result = .threw noInstanceError ∧
          (providerCalls events).length = 2)
        ∨ (0 + 1 < 2 ∧ 0 + 2 ≤ (providerCalls events).length ∧
            0 + 1 ≤ (pauses events).length ∧
            ((providerCalls events)[0 + 1]?).map (fun request => request.SubnetId)
              = some ((sampleConfig ["subnet-a", "subnet-b"]).subnetIds[
                  (0 + 1) % (sampleConfig ["subnet-a", "subnet-b"]).subnetIds.length]?))) :=
  empty_response_is_a_failed_attempt 2 (sampleConfig ["subnet-a", "subnet-b"]) "runner-1"
    "token" emptyThenCreated 0 (by decide) (by intro j hj; omega) rfl

/-- C10: `buildUserDataScript` returns no script line exactly when `ec2Os` is neither
`windows` nor `linux`; in that case `startEc2Instance` still submits creation requests
(at least one), each with the empty string as `UserData`. For `windows` and for `linux`,
with or without a runner home directory, the script starts with `<powershell>`, or with
`#!/bin/bash`, none of its lines is empty, and every creation request carries the base64
text of the joined lines, which is not the empty string. -/
theorem empty_script_iff_unsupported_os (config : Config)
    (label githubRegistrationToken : String)
    (outcomes : Nat → SendResult RunInstancesOutput) :
    ((buildUserDataScript config githubRegistrationToken label).1 = []
        ↔ (config.input.ec2Os ≠ "windows" ∧ config.input.ec2Os ≠ "linux")) ∧
    ((config.input.ec2Os ≠ "windows" ∧ config.input.ec2Os ≠ "linux") →
      ∃ result events,
        startEc2Instance config label githubRegistrationToken outcomes
          = some (result, events) ∧
        providerCalls events ≠ [] ∧
        (providerCalls events).map (fun request => request.UserData)
          = List.replicate (providerCalls events).length "") ∧
    ((config.input.ec2Os = "windows" ∨ config.input.ec2Os = "linux") →
      (buildUserDataScript config githubRegistrationToken label).1.head?
        = some (if config.input.ec2Os = "windows" then "<powershell>" else "#!/bin/bash") ∧
      (∀ line ∈ (buildUserDataScript config githubRegistrationToken label).1, line ≠ "") ∧
      String.intercalate "\n" (buildUserDataScript config githubRegistrationToken label).1
        ≠ "" ∧
      ∃ result events,
        startEc2Instance config label githubRegistrationToken outcomes
          = some (result, events) ∧
        providerCalls events ≠ [] ∧
        ∀ request ∈ providerCalls events,
          request.UserData
              = toBase64 (String.intercalate "\n"
                  (buildUserDataScript config githubRegistrationToken label).1) ∧
            request.UserData ≠ "") := by
  have hiff : (buildUserDataScript config githubRegistrationToken label).1 = []
      ↔ (config.input.ec2Os ≠ "windows" ∧ config.input.ec2Os ≠ "linux") := by
    unfold buildUserDataScript
    split_ifs <;> simp [*]
  obtain ⟨result, events, m, hrun, _, hpos, hcalls, _, _⟩ :=
    startEc2InstanceWith_calls maxRetries config label githubRegistrationToken outcomes
  have hm : 0 < m := hpos (by decide)
  have hlen : (providerCalls events).length = m := by
    rw [hcalls, List.length_map, List.length_range]
  have hnonempty : providerCalls events ≠ [] := by
    intro hnil
    rw [hnil] at hlen
    simp at hlen
    omega
  refine ⟨hiff, fun hos => ?_, fun hos => ?_⟩
  · have hdata : (requestParams config label githubRegistrationToken).UserData = "" := by
      unfold requestParams startParams
      rw [hiff.mpr hos]
      rfl
    refine ⟨result, events, hrun, hnonempty, ?_⟩
    rw [hlen, hcalls, List.map_map]
    apply List.ext_getElem
    · simp
    · intro i h1 h2
      simp [attemptParams, hdata]
  · have hhead := buildUserDataScript_head config githubRegistrationToken label hos
    have hlines := buildUserDataScript_lines config githubRegistrationToken label hos
    have hjoined : String.intercalate "\n"
        (buildUserDataScript config githubRegistrationToken label).1 ≠ "" := by
      cases hscript : (buildUserDataScript config githubRegistrationToken label).1 with
      | nil => rw [hscript] at hhead; simp at hhead
      | cons line lines =>
        rw [hscript] at hlines
        exact intercalate_ne_empty "\n" line lines (hlines line (List.mem_cons_self _ _))
    refine ⟨hhead, ?_, hjoined, result, events, hrun, hnonempty, ?_⟩
    · intro line hline hempty
      have hlt := hlines line hline
      rw [hempty] at hlt
      simp at hlt
    · intro request hrequest
      rw [hcalls, List.mem_map] at hrequest
      obtain ⟨k, _, hk⟩ := hrequest
      have hdata : request.UserData
          = toBase64 (String.intercalate "\n"
              (buildUserDataScript config githubRegistrationToken label).1) := by
        rw [← hk]
        rfl
      refine ⟨hdata, ?_⟩
      rw [hdata]
      exact fun h => hjoined ((toBase64_eq_empty _).mp h)

/-- C10, on a configuration with `ec2-os = macos` and on one with `ec2-os = linux`, with
a provider that rejects every request. -/
theorem empty_script_iff_unsupported_os_witness :
    (∃ result events,
      startEc2Instance unsupportedOsConfig "runner-1" "token" alwaysRejected
        = some (result, events) ∧
      providerCalls events ≠ [] ∧
      (providerCalls events).map (fun request => request.UserData)
        = List.replicate (providerCalls events).length "") ∧
    (∃ result events,
      startEc2Instance (sampleConfig ["subnet-a"]) "runner-1" "token" alwaysRejected
        = some (result, events) ∧
      providerCalls events ≠ [] ∧
      ∀ request ∈ providerCalls events,
        request.UserData
            = toBase64 (String.intercalate "\n"
                (buildUserDataScript (sampleConfig ["subnet-a"]) "token" "runner-1").1) ∧
          request.UserData ≠ "") :=
  ⟨(empty_script_iff_unsupported_os unsupportedOsConfig "runner-1" "token"
      alwaysRejected).2.1 ⟨by decide, by decide⟩,
    ((empty_script_iff_unsupported_os (sampleConfig ["subnet-a"]) "runner-1" "token"
      alwaysRejected).2.2 (Or.inr rfl)).2.2.2⟩

end Ec2GithubRunner
